import Mathlib

/-!
Shallow embedding of the awful.zone diagnostic DNS server (src/awful.go)
together with proofs of its specified properties.

The embedding mirrors the miekg/dns data the handlers touch: a message
carries a question section, a response code and three record sections.
Each handler of awful.go becomes a Lean function from a query message to
the message it writes; the sleep handler, whose only effects are a timed
suspension followed by one write, becomes a function to a list of events.
Transaction ids, header flags and TTLs are never inspected or set to a
non-default value by the handlers, so they are omitted from the model.
-/

/-- One entry of the question section of a DNS message
(miekg/dns `dns.Question`). -/
structure Question where
  Name : String
  Qtype : Nat
  Qclass : Nat
deriving DecidableEq, Repr

/-- Header shared by all resource records (miekg/dns `dns.RR_Header`):
owner name, record type and class. -/
structure RR_Header where
  Name : String
  Rrtype : Nat
  Class : Nat
deriving DecidableEq, Repr

/-- Type-specific payload of the four record kinds awful.go constructs.
The A record keeps the address as the configured textual IP. -/
inductive RData where
  | cname (Target : String)
  | ns (Ns : String)
  | a (A : String)
  | txt (Txt : List String)
deriving DecidableEq, Repr

/-- A resource record: header plus payload. -/
structure RR where
  Hdr : RR_Header
  Rdata : RData
deriving DecidableEq, Repr

/-- A DNS message, as both query and response (miekg/dns `dns.Msg`):
question section, response code, and the answer (`Answer`), authority
(`Ns`) and additional (`Extra`) record sections. -/
structure Msg where
  Question : List Question
  Rcode : Nat
  Answer : List RR
  Ns : List RR
  Extra : List RR
deriving DecidableEq, Repr

/-- miekg/dns record-type constant `dns.TypeA`. -/
def TypeA : Nat := 1

/-- miekg/dns record-type constant `dns.TypeNS`. -/
def TypeNS : Nat := 2

/-- miekg/dns record-type constant `dns.TypeCNAME`. -/
def TypeCNAME : Nat := 5

/-- miekg/dns record-type constant `dns.TypeTXT`. -/
def TypeTXT : Nat := 16

/-- miekg/dns class constant `dns.ClassINET`. -/
def ClassINET : Nat := 1

/-- miekg/dns response-code constant `dns.RcodeSuccess` (NOERROR). -/
def RcodeSuccess : Nat := 0

/-- qname returns the QNAME from a query. If there is no QNAME in a query
it returns "." (awful.go, `qname`). -/
def qname (q : Msg) : String :=
  match q.Question with
  | [] => "."
  | t :: _ => t.Name

/-- Result of `new(dns.Msg)` followed by `m.SetRcode(q, rcode)`:
a fresh message whose question section echoes the first question of the
request (miekg/dns `SetReply`) and whose response code is `rcode`,
all record sections empty. -/
def setRcode (q : Msg) (rcode : Nat) : Msg :=
  { Question := q.Question.take 1, Rcode := rcode,
    Answer := [], Ns := [], Extra := [] }

/-- txtError writes a response with a TXT record containing the given
error message (awful.go, `txtError`). -/
def txtError (q : Msg) (errorMsg : String) : Msg :=
  let m := setRcode q RcodeSuccess
  { m with
    Answer := [ { Hdr := { Name := qname q, Rrtype := TypeTXT,
                           Class := ClassINET },
                  Rdata := RData.txt [errorMsg] } ] }

/-- unknownHandler handles any request that does not match a pattern
(awful.go, `unknownHandler`). -/
def unknownHandler (q : Msg) : Msg :=
  txtError q "request did not match any known pattern."

/-- cnamePitHandler answers every query with a CNAME to a name formed by
prepending "q." to its own name (awful.go, `cnamePitHandler`). -/
def cnamePitHandler (q : Msg) : Msg :=
  let m := setRcode q RcodeSuccess
  { m with
    Answer := [ { Hdr := { Name := qname q, Rrtype := TypeCNAME,
                           Class := ClassINET },
                  Rdata := RData.cname ("q." ++ qname q) } ] }

/-- manyCutsHandler always replies with a referral (awful.go,
`manyCutsHandler`). The Go code reads `q.Question[0].Name` directly, so
on a message with an empty question section it panics with an
index-out-of-range error and writes nothing; that failure is modelled by
`none`. -/
def manyCutsHandler (ip : String) (q : Msg) : Option Msg :=
  let m := setRcode q RcodeSuccess
  match q.Question with
  | [] => none
  | t :: _ =>
    let name := t.Name
    let nextName := "q." ++ name
    some { m with
      Ns := [ { Hdr := { Name := name, Rrtype := TypeNS,
                         Class := ClassINET },
                Rdata := RData.ns nextName } ],
      Extra := [ { Hdr := { Name := nextName, Rrtype := TypeA,
                            Class := ClassINET },
                   Rdata := RData.a ip } ] }

/-- Numeric value of a list of ASCII decimal digits. -/
def digitsVal (l : List Char) : Nat :=
  l.foldl (fun acc c => acc * 10 + (c.toNat - 48)) 0

/-- Go `strconv.ParseInt(s, 10, 16)`, reduced to success or failure plus
the parsed value: an optional sign followed by one or more ASCII decimal
digits, with the value required to fit a signed 16-bit integer. Go
returns a non-nil error (and awful.go takes the error branch) exactly
when this returns `none`: empty input, a stray non-digit character, a
bare sign, or a value outside the 16-bit range. -/
def parseInt16 (s : String) : Option Int :=
  match s.toList with
  | [] => none
  | c :: rest =>
    let neg : Bool := c = '-'
    let ds : List Char := if c = '-' || c = '+' then rest else c :: rest
    if ds.isEmpty || !(ds.all Char.isDigit) then none
    else
      let v : Int := if neg then -(digitsVal ds : Int) else (digitsVal ds : Int)
      if -32768 ≤ v && v ≤ 32767 then some v else none

/-- Go `strings.Split(s, ".")[0]`: the part of the string before its
first dot (the whole string when it has no dot). -/
def firstLabel (s : String) : String :=
  String.mk (s.toList.takeWhile (fun c => c != '.'))

/-- Observable effects of one handler invocation: a timed suspension of
`ms` milliseconds (Go `time.Sleep`), or the write of one response
message. -/
inductive Event where
  | sleepMs (ms : Int)
  | write (m : Msg)
deriving DecidableEq, Repr

/-- sleepHandler sleeps the number of milliseconds specified in the first
label of the qname, and then replies with NOERROR; if the label fails to
parse it returns a TXT record with an error message (awful.go,
`sleepHandler`). The value is passed to the sleep as-is, negative values
included, matching `time.Sleep(time.Duration(sleepCount) * time.Millisecond)`. -/
def sleepHandler (q : Msg) : List Event :=
  let m := setRcode q RcodeSuccess
  match parseInt16 (firstLabel (qname q)) with
  | none => [Event.write (txtError q "failed to parse integer sleep time")]
  | some sleepCount => [Event.sleepMs sleepCount, Event.write m]

/-- The four handlers awful.go registers. -/
inductive HandlerTag where
  | cnamepit
  | manycuts
  | sleep
  | unknown
deriving DecidableEq, Repr

/-- Messages the sleep handler writes: the write events of its trace. -/
def sleepWrites (q : Msg) : List Msg :=
  (sleepHandler q).filterMap
    (fun e => match e with
      | Event.write m => some m
      | Event.sleepMs _ => none)

/-- Every message a given handler writes for a given query. The
many-cuts handler writes nothing when it panics (`none`). -/
def handlerWrites (ip : String) (t : HandlerTag) (q : Msg) : List Msg :=
  match t with
  | HandlerTag.cnamepit => [cnamePitHandler q]
  | HandlerTag.manycuts => (manyCutsHandler ip q).toList
  | HandlerTag.sleep => sleepWrites q
  | HandlerTag.unknown => [unknownHandler q]

/-- All resource records of a message, across its three sections. -/
def msgRecords (m : Msg) : List RR :=
  m.Answer ++ m.Ns ++ m.Extra

/-- Decidable suffix test on character sequences: `pattern` matches
`name` when it is a contiguous suffix of it. -/
def suffixMatch (pattern name : List Char) : Bool :=
  decide (pattern.length ≤ name.length) &&
    pattern == name.drop (name.length - pattern.length)

/-- Modelled from the spec: the Query Router of spec section 4.1. The
concrete router is `dns.ServeMux` from the external DNS library, not
present under src/; main only registers the patterns
"cnamepit."+base, "manycuts."+base, "sleep."+base and the catch-all ".".
Per the spec, the router suffix-matches the fully-qualified query name
against the registered patterns (canonicalized to fully-qualified form
by a trailing dot, as the library does) and falls back to the default
handler when none matches; no error is possible at this stage. -/
def route (base : String) (q : Msg) : HandlerTag :=
  let n := (qname q).toList
  if suffixMatch ("cnamepit.".toList ++ base.toList ++ ['.']) n then
    HandlerTag.cnamepit
  else if suffixMatch ("manycuts.".toList ++ base.toList ++ ['.']) n then
    HandlerTag.manycuts
  else if suffixMatch ("sleep.".toList ++ base.toList ++ ['.']) n then
    HandlerTag.sleep
  else HandlerTag.unknown

/-- C1: every query answered by the CNAME-pit handler gets a success
response whose answer section is exactly one CNAME record owned by the
query name with target "q." prepended to it, authority and additional
sections empty. -/
theorem cnamePit_response (q : Msg) :
    (cnamePitHandler q).Rcode = RcodeSuccess ∧
    (cnamePitHandler q).Answer =
      [ { Hdr := { Name := qname q, Rrtype := TypeCNAME, Class := ClassINET },
          Rdata := RData.cname ("q." ++ qname q) } ] ∧
    (cnamePitHandler q).Ns = [] ∧
    (cnamePitHandler q).Extra = [] :=
  ⟨rfl, rfl, rfl, rfl⟩

/-- C8: qname is total on every query, returning the name of the first
question when the question section is non-empty and the canonical root
name "." when it is empty. -/
theorem qname_spec (q : Msg) :
    qname q = (match q.Question with | [] => "." | t :: _ => t.Name) := by
  cases h : q.Question <;> simp [qname, h]

/-- C9: the default handler returns a success response whose answer
section is exactly one TXT record owned by the query name carrying the
non-empty diagnostic text, with authority and additional sections
empty. -/
theorem unknown_response (q : Msg) :
    (unknownHandler q).Rcode = RcodeSuccess ∧
    (unknownHandler q).Answer =
      [ { Hdr := { Name := qname q, Rrtype := TypeTXT, Class := ClassINET },
          Rdata := RData.txt ["request did not match any known pattern."] } ] ∧
    (unknownHandler q).Ns = [] ∧
    (unknownHandler q).Extra = [] ∧
    ("request did not match any known pattern." : String) ≠ "" :=
  ⟨rfl, rfl, rfl, rfl, by decide⟩

/-- C2: whenever the many-cuts handler produces a response (which it
does for every query carrying a question, the only queries the router
dispatches to it), that response has success status, an empty answer
section, exactly one NS record in the authority section (owner the
query name, nameserver "q." prepended to it) and exactly one glue A
record in the additional section (owner "q." plus the query name,
address the configured advertised IP). -/
theorem manyCuts_response (ip : String) (q : Msg) (m : Msg)
    (h : manyCutsHandler ip q = some m) :
    m.Rcode = RcodeSuccess ∧
    m.Answer = [] ∧
    m.Ns = [ { Hdr := { Name := qname q, Rrtype := TypeNS, Class := ClassINET },
               Rdata := RData.ns ("q." ++ qname q) } ] ∧
    m.Extra = [ { Hdr := { Name := "q." ++ qname q, Rrtype := TypeA,
                           Class := ClassINET },
                  Rdata := RData.a ip } ] := by
  cases hq : q.Question with
  | nil => simp [manyCutsHandler, hq] at h
  | cons t ts =>
    simp only [manyCutsHandler, hq, Option.some.injEq] at h
    subst h
    refine ⟨rfl, rfl, ?_, ?_⟩ <;> simp [qname, hq]

/-- Example query for the many-cuts handler. -/
def exManyCutsQ : Msg :=
  { Question := [ { Name := "manycuts.example.com.", Qtype := 1, Qclass := 1 } ],
    Rcode := 0, Answer := [], Ns := [], Extra := [] }

/-- Response the many-cuts handler gives `exManyCutsQ`. -/
def exManyCutsResp : Msg :=
  { Question := [ { Name := "manycuts.example.com.", Qtype := 1, Qclass := 1 } ],
    Rcode := 0,
    Answer := [],
    Ns := [ { Hdr := { Name := "manycuts.example.com.", Rrtype := TypeNS,
                       Class := ClassINET },
              Rdata := RData.ns "q.manycuts.example.com." } ],
    Extra := [ { Hdr := { Name := "q.manycuts.example.com.", Rrtype := TypeA,
                          Class := ClassINET },
                 Rdata := RData.a "127.0.0.1" } ] }

/-- Witness for C2 at a concrete query and the configured IP 127.0.0.1. -/
theorem manyCuts_response_witness :
    (manyCutsHandler "127.0.0.1" exManyCutsQ = some exManyCutsResp) ∧
    (exManyCutsResp.Rcode = RcodeSuccess ∧
     exManyCutsResp.Answer = [] ∧
     exManyCutsResp.Ns =
       [ { Hdr := { Name := qname exManyCutsQ, Rrtype := TypeNS,
                    Class := ClassINET },
           Rdata := RData.ns ("q." ++ qname exManyCutsQ) } ] ∧
     exManyCutsResp.Extra =
       [ { Hdr := { Name := "q." ++ qname exManyCutsQ, Rrtype := TypeA,
                    Class := ClassINET },
           Rdata := RData.a "127.0.0.1" } ]) :=
  ⟨by decide, manyCuts_response "127.0.0.1" exManyCutsQ exManyCutsResp (by decide)⟩

/-- C3: when the first label of the query name fails 16-bit integer
parsing, the sleep handler performs no sleep and writes exactly one
response: a success message whose answer is a single TXT record with
text "failed to parse integer sleep time". -/
theorem sleep_parse_failure (q : Msg)
    (h : parseInt16 (firstLabel (qname q)) = none) :
    sleepHandler q =
      [ Event.write
          { Question := q.Question.take 1, Rcode := RcodeSuccess,
            Answer := [ { Hdr := { Name := qname q, Rrtype := TypeTXT,
                                   Class := ClassINET },
                          Rdata := RData.txt ["failed to parse integer sleep time"] } ],
            Ns := [], Extra := [] } ] := by
  simp [sleepHandler, h, txtError, setRcode, RcodeSuccess]

/-- Example sleep query whose first label is not an integer. -/
def exSleepBadQ : Msg :=
  { Question := [ { Name := "abc.sleep.example.com.", Qtype := 16, Qclass := 1 } ],
    Rcode := 0, Answer := [], Ns := [], Extra := [] }

/-- Witness for C3 at a concrete query with first label "abc". -/
theorem sleep_parse_failure_witness :
    parseInt16 (firstLabel (qname exSleepBadQ)) = none ∧
    sleepHandler exSleepBadQ =
      [ Event.write
          { Question := exSleepBadQ.Question.take 1, Rcode := RcodeSuccess,
            Answer := [ { Hdr := { Name := qname exSleepBadQ, Rrtype := TypeTXT,
                                   Class := ClassINET },
                          Rdata := RData.txt ["failed to parse integer sleep time"] } ],
            Ns := [], Extra := [] } ] :=
  ⟨by decide, sleep_parse_failure exSleepBadQ (by decide)⟩

/-- C4: when the first label of the query name parses as a non-negative
16-bit integer K, the sleep handler first suspends for K milliseconds
and then writes a single success response whose answer, authority and
additional sections are all empty. -/
theorem sleep_parse_success (q : Msg) (k : Int)
    (h : parseInt16 (firstLabel (qname q)) = some k) (hk : 0 ≤ k) :
    sleepHandler q =
      [ Event.sleepMs k,
        Event.write
          { Question := q.Question.take 1, Rcode := RcodeSuccess,
            Answer := [], Ns := [], Extra := [] } ] ∧ 0 ≤ k := by
  refine ⟨?_, hk⟩
  simp [sleepHandler, h, setRcode, RcodeSuccess]

/-- Example sleep query with first label "5". -/
def exSleepGoodQ : Msg :=
  { Question := [ { Name := "5.sleep.example.com.", Qtype := 16, Qclass := 1 } ],
    Rcode := 0, Answer := [], Ns := [], Extra := [] }

/-- Witness for C4 at a concrete query with first label "5". -/
theorem sleep_parse_success_witness :
    (parseInt16 (firstLabel (qname exSleepGoodQ)) = some 5 ∧ (0 : Int) ≤ 5) ∧
    (sleepHandler exSleepGoodQ =
      [ Event.sleepMs 5,
        Event.write
          { Question := exSleepGoodQ.Question.take 1, Rcode := RcodeSuccess,
            Answer := [], Ns := [], Extra := [] } ] ∧ (0 : Int) ≤ 5) :=
  ⟨⟨by decide, by decide⟩,
   sleep_parse_success exSleepGoodQ 5 (by decide) (by decide)⟩

/-- C5: every message any of the four handlers writes carries the
success response code, for every query. -/
theorem handlers_rcode_success (ip : String) (t : HandlerTag) (q : Msg) :
    ((handlerWrites ip t q).all (fun m => m.Rcode == RcodeSuccess)) = true := by
  cases t with
  | cnamepit => rfl
  | manycuts =>
    cases hq : q.Question with
    | nil => simp [handlerWrites, manyCutsHandler, hq]
    | cons a b => simp [handlerWrites, manyCutsHandler, hq, setRcode, RcodeSuccess]
  | sleep =>
    cases hp : parseInt16 (firstLabel (qname q)) with
    | none =>
      simp [handlerWrites, sleepWrites, sleepHandler, hp, txtError, setRcode,
            RcodeSuccess]
    | some k =>
      simp [handlerWrites, sleepWrites, sleepHandler, hp, setRcode, RcodeSuccess]
  | unknown => rfl

/-- C10: every resource record of every message any handler writes
carries the Internet class, for every query, whatever class the query
requested. -/
theorem records_class_inet (ip : String) (t : HandlerTag) (q : Msg) :
    ((handlerWrites ip t q).all
      (fun m => (msgRecords m).all (fun r => r.Hdr.Class == ClassINET))) = true := by
  cases t with
  | cnamepit => rfl
  | manycuts =>
    cases hq : q.Question with
    | nil => simp [handlerWrites, manyCutsHandler, hq]
    | cons a b =>
      simp [handlerWrites, manyCutsHandler, hq, setRcode, msgRecords, ClassINET]
  | sleep =>
    cases hp : parseInt16 (firstLabel (qname q)) with
    | none =>
      simp [handlerWrites, sleepWrites, sleepHandler, hp, txtError, setRcode,
            msgRecords, ClassINET]
    | some k =>
      simp [handlerWrites, sleepWrites, sleepHandler, hp, setRcode, msgRecords]
  | unknown => rfl

/-- Query message with an empty question section. -/
def emptyQuestionQ : Msg :=
  { Question := [], Rcode := 0, Answer := [], Ns := [], Extra := [] }

/-- C6: on a query with no question section the many-cuts handler does
not substitute the root name; it reads the first question directly and
fails (index out of range), writing no response. -/
theorem manyCuts_empty_question_fails :
    manyCutsHandler "127.0.0.1" emptyQuestionQ = none := rfl

/-- A pattern strictly longer than the name never suffix-matches it. -/
theorem suffixMatch_false_of_long {p n : List Char} (h : n.length < p.length) :
    suffixMatch p n = false := by
  have hnot : ¬ (p.length ≤ n.length) := by omega
  simp [suffixMatch, hnot]

/-- C7: a query with no question section resolves to the root name "."
and is routed to the default handler, which produces a well-formed
success diagnostic TXT response. -/
theorem empty_question_routes_default (base : String) (q : Msg)
    (h : q.Question = []) :
    route base q = HandlerTag.unknown ∧
    unknownHandler q =
      { Question := [], Rcode := RcodeSuccess,
        Answer := [ { Hdr := { Name := ".", Rrtype := TypeTXT,
                               Class := ClassINET },
                      Rdata := RData.txt ["request did not match any known pattern."] } ],
        Ns := [], Extra := [] } := by
  have hq : qname q = "." := by simp [qname, h]
  have hlen : ∀ (pre : List Char), 2 ≤ pre.length →
      suffixMatch (pre ++ base.toList ++ ['.']) (("." : String).toList) = false := by
    intro pre hpre
    apply suffixMatch_false_of_long
    have h1 : (("." : String).toList).length = 1 := rfl
    rw [h1, List.length_append, List.length_append]
    omega
  constructor
  · simp only [route]
    rw [hq]
    rw [hlen ("cnamepit.".toList) (by decide), hlen ("manycuts.".toList) (by decide),
        hlen ("sleep.".toList) (by decide)]
    rfl
  · simp [unknownHandler, txtError, setRcode, hq, h]

/-- Example query with no question section for the routing witness. -/
def exEmptyQ : Msg :=
  { Question := [], Rcode := 0, Answer := [], Ns := [], Extra := [] }

/-- Witness for C7 at the empty-question query and base example.com. -/
theorem empty_question_routes_default_witness :
    exEmptyQ.Question = [] ∧
    (route "example.com" exEmptyQ = HandlerTag.unknown ∧
     unknownHandler exEmptyQ =
       { Question := [], Rcode := RcodeSuccess,
         Answer := [ { Hdr := { Name := ".", Rrtype := TypeTXT,
                                Class := ClassINET },
                       Rdata := RData.txt ["request did not match any known pattern."] } ],
         Ns := [], Extra := [] }) :=
  ⟨rfl, empty_question_routes_default "example.com" exEmptyQ rfl⟩
